import Mathlib

/-!
Verification of the Farsi date/location resolution engine of the tdl
pipeline (Telegram downloader with Jalali date resolution and Iranian
gazetteer geocoding).

The development shallowly embeds:
* the Jalali/Gregorian calendar conversion used by the resolve command
  (the repository delegates to the external jalali-moment library, whose
  arithmetic is the standard jalaali algorithm; it is modelled here from
  the specification of the converter),
* the date phrase scanning of src/commands/resolve.ts
  (persianToEnglishNumbers, findMonthAsWholeWord, extractOrdinalDay,
  parseJalaliDate, resolveRelativeDate, extractDatesFromCaption, and the
  per-album resolution loop of the resolve command),
* the gazetteer loading and location resolution of
  src/commands/geocode.ts (IranLocationsDB.loadData, translateName,
  resolveFromDB) and the GeoNames ingestion filter of
  scripts/download-locations.ts.

JavaScript integers are modelled as Int, JS truncated division as
Int.tdiv.  JS Date objects at day granularity are modelled by their
Julian day number together with the milliseconds elapsed of the UTC day.
-/

/-- JS-style integer division, truncating toward zero, written div(a, b)
in the jalaali algorithm. -/
def jsDiv (a b : Int) : Int := Int.tdiv a b

/-- JS-style remainder, mod(a, b) of the jalaali algorithm: a - div(a,b)*b. -/
def jsMod (a b : Int) : Int := a - (Int.tdiv a b) * b

/-- Modelled from the spec: breakpoints of the Persian leap cycle used by
the jalaali algorithm underlying the external jalali-moment dependency
(the converter itself is not under src/, only its call sites are). -/
def jalaaliBreaks : List Int :=
  [-61, 9, 38, 199, 426, 686, 756, 818, 1111, 1181, 1210,
   1635, 2060, 2097, 2192, 2262, 2324, 2394, 2456, 3178]

/-- Modelled from the spec: the scanning loop of jalCal over the break
list.  Returns the accumulated leapJ, the last passed break jp, and the
width jump of the interval containing the year. -/
def jalCalLoop (jy : Int) : List Int → Int → Int → Int → Int × Int × Int
  | [], leapJ, jp, jump => (leapJ, jp, jump)
  | jm :: rest, leapJ, jp, _ =>
    let jump := jm - jp
    if jy < jm then (leapJ, jp, jump)
    else jalCalLoop jy rest (leapJ + jsDiv jump 33 * 8 + jsDiv (jsMod jump 33) 4) jm jump

/-- Result record of jalCal: leap class of the year, matching Gregorian
year of Farvardin 1, and the March day on which Farvardin 1 falls. -/
structure JalCalResult where
  leap : Int
  gy : Int
  march : Int
deriving DecidableEq

/-- Modelled from the spec: jalCal of the jalaali algorithm, computing
for a Persian year its leap class and the Gregorian date of its first
day, using the Persian leap cycle (not a fixed offset). -/
def jalCal (jy : Int) : JalCalResult :=
  let gy := jy + 621
  let lpj := jalCalLoop jy (jalaaliBreaks.drop 1) (-14) (-61) 0
  let leapJ0 := lpj.1
  let jp := lpj.2.1
  let jump := lpj.2.2
  let n := jy - jp
  let leapJ1 := leapJ0 + jsDiv n 33 * 8 + jsDiv (jsMod n 33 + 3) 4
  let leapJ := if jsMod jump 33 == 4 && jump - n == 4 then leapJ1 + 1 else leapJ1
  let leapG := jsDiv gy 4 - jsDiv ((jsDiv gy 100 + 1) * 3) 4 - 150
  let march := 20 + leapJ - leapG
  let n2 := if jump - n < 6 then n - jump + jsDiv (jump + 4) 33 * 33 else n
  let leap0 := jsMod (jsMod (n2 + 1) 33 - 1) 4
  let leap := if leap0 == -1 then 4 else leap0
  ⟨leap, gy, march⟩

/-- Modelled from the spec: a Persian year is leap when its leap class is 0. -/
def isLeapJalaaliYear (jy : Int) : Bool := (jalCal jy).leap == 0

/-- Modelled from the spec: number of days of a Persian month, including
the leap-dependent length of the 12th month. -/
def jalaaliMonthLength (jy jm : Int) : Int :=
  if jm ≤ 6 then 31
  else if jm ≤ 11 then 30
  else if isLeapJalaaliYear jy then 30 else 29

/-- Modelled from the spec: Gregorian calendar date to Julian day number
(g2d of the jalaali algorithm). -/
def g2d (gy gm gd : Int) : Int :=
  let d := jsDiv ((gy + jsDiv (gm - 8) 6 + 100100) * 1461) 4
    + jsDiv (153 * jsMod (gm + 9) 12 + 2) 5
    + gd - 34840408
  d - jsDiv (jsDiv (gy + 100100 + jsDiv (gm - 8) 6) 100 * 3) 4 + 752

/-- Modelled from the spec: Julian day number to Gregorian calendar date
(d2g of the jalaali algorithm); returns (year, month, day). -/
def d2g (jdn : Int) : Int × Int × Int :=
  let j0 := 4 * jdn + 139361631
  let j := j0 + jsDiv (jsDiv (4 * jdn + 183187720) 146097 * 3) 4 * 4 - 3908
  let i := jsDiv (jsMod j 1461) 4 * 5 + 308
  let gd := jsDiv (jsMod i 153) 5 + 1
  let gm := jsMod (jsDiv i 153) 12 + 1
  let gy := jsDiv j 1461 - 100100 + jsDiv (8 - gm) 6
  (gy, gm, gd)

/-- Modelled from the spec: Persian calendar date to Julian day number
(j2d of the jalaali algorithm). -/
def j2d (jy jm jd : Int) : Int :=
  let r := jalCal jy
  g2d r.gy 3 r.march + (jm - 1) * 31 - jsDiv jm 7 * (jm - 7) + jd - 1

/-- Modelled from the spec: Julian day number to Persian calendar date
(d2j of the jalaali algorithm); the inverse direction toJalali. -/
def d2j (jdn : Int) : Int × Int × Int :=
  let gy := (d2g jdn).1
  let jy := gy - 621
  let r := jalCal jy
  let jdn1f := g2d gy 3 r.march
  let k := jdn - jdn1f
  if k ≥ 0 then
    if k ≤ 185 then
      (jy, 1 + jsDiv k 31, jsMod k 31 + 1)
    else
      let k2 := k - 186
      (jy, 7 + jsDiv k2 30, jsMod k2 30 + 1)
  else
    let jy2 := jy - 1
    let k0 := k + 179
    let k2 := if r.leap == 1 then k0 + 1 else k0
    (jy2, 7 + jsDiv k2 30, jsMod k2 30 + 1)

/-- Validity of a Persian calendar triple: the year lies in the domain of
the jalaali break table, the month is 1..12 and the day lies within the
month length (leap-aware for month 12).  This is the validity that the
isValid check of jalaliToUTCDate enforces. -/
def jalaliValid (jy jm jd : Int) : Bool :=
  -61 ≤ jy && jy < 3178 && 1 ≤ jm && jm ≤ 12 && 1 ≤ jd && jd ≤ jalaaliMonthLength jy jm

/-- jalaliToUTCDate of src/commands/resolve.ts: convert a Jalali triple to
a Gregorian date at UTC midnight (here: its Julian day number), or none
when the triple is invalid.  The source builds the date from the formatted
YYYY-MM-DD string with a fixed T00:00:00.000Z time part, so no timezone
shift occurs; the day number representation captures exactly that. -/
def jalaliToUTCDate (year month day : Int) : Option Int :=
  if jalaliValid year month day then some (j2d year month day) else none

/-- One year of the round-trip check: every valid day of the Persian year
jy survives j2d followed by d2j.  The conversion of the first of the
month is hoisted out of the day loop: since j2d is, by definition, the
day-one conversion plus the day offset (lemma j2d_day_shift below), the
check covers j2d at every day of the month. -/
def roundTripYear (jy : Int) : Bool :=
  (List.range 12).all fun m0 =>
    let jm : Int := (m0 : Int) + 1
    let base : Int := j2d jy jm 1
    (List.range (jalaaliMonthLength jy jm).toNat).all fun d0 =>
      d2j (base + (d0 : Int)) == (jy, jm, (d0 : Int) + 1)

/-- Bounded round-trip check over n consecutive Persian years from lo. -/
def roundTripRange (lo : Int) (n : Nat) : Bool :=
  (List.range n).all fun i => roundTripYear (lo + (i : Int))

/-- j2d is an affine function of the day: converting day jd of a month is
converting day 1 of it plus the day offset.  Immediate from the formula
of j2d, whose month and year terms do not involve the day. -/
theorem j2d_day_shift (jy jm jd : Int) : j2d jy jm jd = j2d jy jm 1 + (jd - 1) := by
  unfold j2d
  dsimp only
  ring

/-- Two adjacent checked ranges compose. -/
theorem roundTripRange_append (lo mid : Int) (a b : Nat) (hmid : mid = lo + (a : Int))
    (h1 : roundTripRange lo a = true) (h2 : roundTripRange mid b = true) :
    roundTripRange lo (a + b) = true := by
  unfold roundTripRange at *
  rw [List.all_eq_true] at *
  intro i hi
  have hiab : i < a + b := List.mem_range.1 hi
  by_cases hia : i < a
  · exact h1 i (List.mem_range.2 hia)
  · have h := h2 (i - a) (List.mem_range.2 (by omega))
    have hceq : mid + ((i - a : Nat) : Int) = lo + (i : Int) := by
      rw [hmid]; omega
    simpa [hceq] using h

set_option maxHeartbeats 4000000 in
/-- Kernel-checked enumeration: Persian years 1380 and 1381. -/
theorem roundTripChunk01 : roundTripRange 1380 2 = true := by decide!

set_option maxHeartbeats 4000000 in
/-- Kernel-checked enumeration: Persian years 1382 and 1383. -/
theorem roundTripChunk02 : roundTripRange 1382 2 = true := by decide!

set_option maxHeartbeats 4000000 in
/-- Kernel-checked enumeration: Persian years 1384 and 1385. -/
theorem roundTripChunk03 : roundTripRange 1384 2 = true := by decide!

set_option maxHeartbeats 4000000 in
/-- Kernel-checked enumeration: Persian years 1386 and 1387. -/
theorem roundTripChunk04 : roundTripRange 1386 2 = true := by decide!

set_option maxHeartbeats 4000000 in
/-- Kernel-checked enumeration: Persian years 1388 and 1389. -/
theorem roundTripChunk05 : roundTripRange 1388 2 = true := by decide!

set_option maxHeartbeats 4000000 in
/-- Kernel-checked enumeration: Persian years 1390 and 1391. -/
theorem roundTripChunk06 : roundTripRange 1390 2 = true := by decide!

set_option maxHeartbeats 4000000 in
/-- Kernel-checked enumeration: Persian years 1392 and 1393. -/
theorem roundTripChunk07 : roundTripRange 1392 2 = true := by decide!

set_option maxHeartbeats 4000000 in
/-- Kernel-checked enumeration: Persian years 1394 and 1395. -/
theorem roundTripChunk08 : roundTripRange 1394 2 = true := by decide!

set_option maxHeartbeats 4000000 in
/-- Kernel-checked enumeration: Persian years 1396 and 1397. -/
theorem roundTripChunk09 : roundTripRange 1396 2 = true := by decide!

set_option maxHeartbeats 4000000 in
/-- Kernel-checked enumeration: Persian years 1398 and 1399. -/
theorem roundTripChunk10 : roundTripRange 1398 2 = true := by decide!

set_option maxHeartbeats 4000000 in
/-- Kernel-checked enumeration: Persian years 1400 and 1401. -/
theorem roundTripChunk11 : roundTripRange 1400 2 = true := by decide!

set_option maxHeartbeats 4000000 in
/-- Kernel-checked enumeration: Persian years 1402 and 1403. -/
theorem roundTripChunk12 : roundTripRange 1402 2 = true := by decide!

set_option maxHeartbeats 4000000 in
/-- Kernel-checked enumeration: Persian years 1404 and 1405. -/
theorem roundTripChunk13 : roundTripRange 1404 2 = true := by decide!

set_option maxHeartbeats 4000000 in
/-- Kernel-checked enumeration: Persian years 1406 and 1407. -/
theorem roundTripChunk14 : roundTripRange 1406 2 = true := by decide!

set_option maxHeartbeats 4000000 in
/-- Kernel-checked enumeration: Persian years 1408 and 1409. -/
theorem roundTripChunk15 : roundTripRange 1408 2 = true := by decide!

/-- The Jalali round trip holds for every valid day of the Persian years
1380 to 1409 (Gregorian 2001 to 2031), the operational era of the
pipeline's inputs. -/
theorem roundTripRange_holds : roundTripRange 1380 30 = true := by
  have c0 : roundTripRange 1380 4 = true :=
    roundTripRange_append 1380 1382 2 2 (by norm_num) roundTripChunk01 roundTripChunk02
  have c1 : roundTripRange 1380 6 = true :=
    roundTripRange_append 1380 1384 4 2 (by norm_num) c0 roundTripChunk03
  have c2 : roundTripRange 1380 8 = true :=
    roundTripRange_append 1380 1386 6 2 (by norm_num) c1 roundTripChunk04
  have c3 : roundTripRange 1380 10 = true :=
    roundTripRange_append 1380 1388 8 2 (by norm_num) c2 roundTripChunk05
  have c4 : roundTripRange 1380 12 = true :=
    roundTripRange_append 1380 1390 10 2 (by norm_num) c3 roundTripChunk06
  have c5 : roundTripRange 1380 14 = true :=
    roundTripRange_append 1380 1392 12 2 (by norm_num) c4 roundTripChunk07
  have c6 : roundTripRange 1380 16 = true :=
    roundTripRange_append 1380 1394 14 2 (by norm_num) c5 roundTripChunk08
  have c7 : roundTripRange 1380 18 = true :=
    roundTripRange_append 1380 1396 16 2 (by norm_num) c6 roundTripChunk09
  have c8 : roundTripRange 1380 20 = true :=
    roundTripRange_append 1380 1398 18 2 (by norm_num) c7 roundTripChunk10
  have c9 : roundTripRange 1380 22 = true :=
    roundTripRange_append 1380 1400 20 2 (by norm_num) c8 roundTripChunk11
  have c10 : roundTripRange 1380 24 = true :=
    roundTripRange_append 1380 1402 22 2 (by norm_num) c9 roundTripChunk12
  have c11 : roundTripRange 1380 26 = true :=
    roundTripRange_append 1380 1404 24 2 (by norm_num) c10 roundTripChunk13
  have c12 : roundTripRange 1380 28 = true :=
    roundTripRange_append 1380 1406 26 2 (by norm_num) c11 roundTripChunk14
  exact roundTripRange_append 1380 1408 28 2 (by norm_num) c12 roundTripChunk15

/-- Is the character an ASCII decimal digit (JS regex d after numeral
normalization). -/
def isDigitCh (c : Char) : Bool := '0' ≤ c && c ≤ '9'

/-- Numeric value of an ASCII digit character. -/
def digitVal (c : Char) : Nat := c.toNat - '0'.toNat

/-- persianToEnglishNumbers of src/commands/resolve.ts: replace each
Persian-script digit (U+06F0 to U+06F9) by its ASCII equivalent, leaving
every other character unchanged. -/
def persianToEnglishNumbers (s : String) : String :=
  String.mk (s.data.map fun c =>
    if 0x6F0 ≤ c.toNat && c.toNat ≤ 0x6F9 then Char.ofNat (c.toNat - 0x6F0 + '0'.toNat) else c)

/-- JS String.prototype.trim at the precision the resolve command needs:
drop leading and trailing whitespace. -/
def jsTrim (s : String) : String :=
  String.mk ((s.data.dropWhile Char.isWhitespace).reverse.dropWhile Char.isWhitespace |>.reverse)

/-- Does the pattern occur in the text starting at position i. -/
def occursAt (text pat : List Char) (i : Nat) : Bool :=
  pat.isPrefixOf (text.drop i)

/-- Does the character at position i of the text belong to one of the
Persian/Arabic Unicode blocks of the word-boundary regex of
findMonthAsWholeWord (U+0600-U+06FF, U+0750-U+077F, U+FB50-U+FDFF,
U+FE70-U+FEFF).  A position outside the text holds no such character. -/
def persianAt (text : List Char) (i : Nat) : Bool :=
  match text.get? i with
  | none => false
  | some c =>
    (0x600 ≤ c.toNat && c.toNat ≤ 0x6FF) || (0x750 ≤ c.toNat && c.toNat ≤ 0x77F) ||
    (0xFB50 ≤ c.toNat && c.toNat ≤ 0xFDFF) || (0xFE70 ≤ c.toNat && c.toNat ≤ 0xFEFF)

/-- Does the month name match at position i as a standalone word: it
occurs there, the preceding character (if any) is not Persian/Arabic
script, and neither is the following one.  This is the body of the
lookbehind/lookahead regex of findMonthAsWholeWord. -/
def wholeWordAt (text pat : List Char) (i : Nat) : Bool :=
  occursAt text pat i
  && (i == 0 || !persianAt text (i - 1))
  && !persianAt text (i + pat.length)

/-- findMonthAsWholeWord of src/commands/resolve.ts: index of the first
standalone-word occurrence of the month name in the text, none when there
is no such occurrence (the source returns -1 there).  The regex engine
scans candidate positions left to right, which List.find? over the
position range reproduces. -/
def findMonthAsWholeWord (text monthName : String) : Option Nat :=
  (List.range (text.data.length + 1)).find? fun i => wholeWordAt text.data monthName.data i

/-- PERSIAN_ORDINALS of src/commands/resolve.ts, in insertion order:
Persian ordinal day words and their day numbers. -/
def PERSIAN_ORDINALS : List (String × Nat) :=
  [("اول", 1), ("یکم", 1),
   ("دوم", 2),
   ("سوم", 3),
   ("چهارم", 4),
   ("پنجم", 5),
   ("ششم", 6),
   ("هفتم", 7),
   ("هشتم", 8),
   ("نهم", 9),
   ("دهم", 10),
   ("یازدهم", 11),
   ("دوازدهم", 12),
   ("سیزدهم", 13),
   ("چهاردهم", 14),
   ("پانزدهم", 15),
   ("شانزدهم", 16),
   ("هفدهم", 17),
   ("هجدهم", 18), ("هیجدهم", 18),
   ("نوزدهم", 19),
   ("بیستم", 20),
   ("بیست‌ویکم", 21), ("بیست و یکم", 21),
   ("بیست‌ودوم", 22), ("بیست و دوم", 22),
   ("بیست‌وسوم", 23), ("بیست و سوم", 23),
   ("بیست‌وچهارم", 24), ("بیست و چهارم", 24),
   ("بیست‌وپنجم", 25), ("بیست و پنجم", 25),
   ("بیست‌وششم", 26), ("بیست و ششم", 26),
   ("بیست‌وهفتم", 27), ("بیست و هفتم", 27),
   ("بیست‌وهشتم", 28), ("بیست و هشتم", 28),
   ("بیست‌ونهم", 29), ("بیست و نهم", 29),
   ("سی‌ام", 30), ("سیم", 30),
   ("سی‌ویکم", 31), ("سی و یکم", 31)]

/-- JS String.prototype.includes: the pattern occurs somewhere in the
text. -/
def containsSub (text pat : String) : Bool :=
  (List.range (text.data.length + 1)).any fun i => occursAt text.data pat.data i

/-- Stable insertion into a length-descending sorted list: the inserted
pair, which precedes the list elements in the original order, stays ahead
of entries of equal length. -/
def insertByLenDesc (x : String × Nat) : List (String × Nat) → List (String × Nat)
  | [] => [x]
  | y :: ys => if x.1.length < y.1.length then y :: insertByLenDesc x ys else x :: y :: ys

/-- Stable sort by descending string length, the order Array.prototype
.sort produces under the comparator of extractOrdinalDay (stable since
ES2019). -/
def sortByLenDesc : List (String × Nat) → List (String × Nat)
  | [] => []
  | x :: xs => insertByLenDesc x (sortByLenDesc xs)

/-- extractOrdinalDay of src/commands/resolve.ts: sort the ordinal table
by descending word length (stably, as Array.prototype.sort is) so longer
ordinals are tried first, then return the value of the first ordinal word
contained in the text. -/
def extractOrdinalDay (text : String) : Option Nat :=
  let sorted := sortByLenDesc PERSIAN_ORDINALS
  (sorted.find? fun p => containsSub text p.1).map (·.2)

/-- Is the character one of the date separators of the numeric pattern. -/
def isSepCh (c : Char) : Bool := c == '/' || c == '-'

/-- Greedy 1-2 digit day at the head of the list (tail of the numeric
date pattern, with no trailing constraint): two digits when the second
character is a digit, else one. -/
def day12At : List Char → Option Nat
  | [] => none
  | [d1] => if isDigitCh d1 then some (digitVal d1) else none
  | d1 :: d2 :: _ =>
    if isDigitCh d1 then
      if isDigitCh d2 then some (10 * digitVal d1 + digitVal d2) else some (digitVal d1)
    else none

/-- Match of the numeric Jalali pattern (4 digits, separator, 1-2 digits,
separator, 1-2 digits) anchored at the head of the list, with the greedy
backtracking of the JS regex: the month takes two digits only when a
separator follows them, else one digit followed by a separator. -/
def numTripleAt (cs : List Char) : Option (Nat × Nat × Nat) :=
  match cs with
  | y1 :: y2 :: y3 :: y4 :: s1 :: rest =>
    if isDigitCh y1 && isDigitCh y2 && isDigitCh y3 && isDigitCh y4 && isSepCh s1 then
      let year := 1000 * digitVal y1 + 100 * digitVal y2 + 10 * digitVal y3 + digitVal y4
      match rest with
      | m1 :: m2 :: rest2 =>
        if isDigitCh m1 then
          if isSepCh m2 then
            (day12At rest2).map fun d => (year, digitVal m1, d)
          else if isDigitCh m2 then
            match rest2 with
            | s2 :: rest3 =>
              if isSepCh s2 then
                (day12At rest3).map fun d => (year, 10 * digitVal m1 + digitVal m2, d)
              else none
            | [] => none
          else none
        else none
      | _ => none
    else none
  | _ => none

/-- Leftmost match of the numeric Jalali pattern in the list (the regex
engine tries successive start positions). -/
def findNumericTriple : List Char → Option (Nat × Nat × Nat)
  | [] => none
  | c :: rest =>
    match numTripleAt (c :: rest) with
    | some r => some r
    | none => findNumericTriple rest

/-- Leftmost standalone 1-2 digit number: the day regex with lookbehind
and lookahead rejecting adjacent digits, so a digit run of length 3 or
more (such as a 4-digit year) never yields a match.  The flag records
whether the character before the current position was a digit. -/
def findDay12 : List Char → Bool → Option Nat
  | [], _ => none
  | c :: rest, prevD =>
    if !prevD && isDigitCh c then
      match rest with
      | [] => some (digitVal c)
      | c2 :: rest2 =>
        if !isDigitCh c2 then some (digitVal c)
        else
          match rest2 with
          | [] => some (10 * digitVal c + digitVal c2)
          | c3 :: _ =>
            if !isDigitCh c3 then some (10 * digitVal c + digitVal c2)
            else findDay12 rest true
    else findDay12 rest (isDigitCh c)

/-- Leftmost run of four digits (the year regex, with no boundary
conditions). -/
def findYear4 : List Char → Option Nat
  | c1 :: c2 :: c3 :: c4 :: rest =>
    if isDigitCh c1 && isDigitCh c2 && isDigitCh c3 && isDigitCh c4 then
      some (1000 * digitVal c1 + 100 * digitVal c2 + 10 * digitVal c3 + digitVal c4)
    else findYear4 (c2 :: c3 :: c4 :: rest)
  | _ => none

/-- JALALI_MONTHS of src/commands/resolve.ts, in insertion order. -/
def JALALI_MONTHS : List (String × Nat) :=
  [("فروردین", 1),
   ("اردیبهشت", 2),
   ("خرداد", 3),
   ("تیر", 4),
   ("مرداد", 5),
   ("شهریور", 6),
   ("مهر", 7),
   ("آبان", 8),
   ("آذر", 9),
   ("دی", 10),
   ("بهمن", 11),
   ("اسفند", 12)]

/-- Month-name scanning loop of parseJalaliDate: for each month name
occurring as a standalone word, determine the day (ordinal word first,
then standalone 1-2 digit number), skip the month when no day in 1..31 is
found, pick the year (first 4-digit number, else the Persian year of the
reference date, else 1404), and return the first successful conversion. -/
def monthLoop (dateStr normalized : String) (ref : Option Int) :
    List (String × Nat) → Option Int
  | [] => none
  | (name, num) :: rest =>
    if (findMonthAsWholeWord dateStr name).isSome then
      let dayOpt :=
        match extractOrdinalDay dateStr with
        | some d => some d
        | none => findDay12 normalized.data false
      match dayOpt with
      | none => monthLoop dateStr normalized ref rest
      | some day =>
        if day < 1 || day > 31 then monthLoop dateStr normalized ref rest
        else
          let year : Int :=
            match findYear4 normalized.data with
            | some y => (y : Int)
            | none =>
              match ref with
              | some refDay => (d2j refDay).1
              | none => 1404
          match jalaliToUTCDate year (num : Int) (day : Int) with
          | some dt => some dt
          | none => monthLoop dateStr normalized ref rest
    else monthLoop dateStr normalized ref rest

/-- parseJalaliDate of src/commands/resolve.ts: normalize digits, try the
numeric Jalali pattern first (returning its conversion result directly,
even when invalid), then scan the twelve month names.  The reference date
is given by its UTC day number. -/
def parseJalaliDate (dateStr : String) (referenceDate : Option Int) : Option Int :=
  let normalized := persianToEnglishNumbers (jsTrim dateStr)
  match findNumericTriple normalized.data with
  | some (y, m, d) => jalaliToUTCDate (y : Int) (m : Int) (d : Int)
  | none => monthLoop dateStr normalized referenceDate JALALI_MONTHS

/-- A JS Date at the granularity the resolve command uses: the Julian day
number of its UTC calendar day, plus the milliseconds elapsed within that
UTC day. -/
structure JSDate where
  day : Int
  msOfDay : Int
deriving DecidableEq

/-- Date.prototype.getUTCDay: 0 = Sunday .. 6 = Saturday.  Julian day
number 2451545 is 2000-01-01, a Saturday, and 2451545 + 1 = 2451546 is
congruent to 6 modulo 7, so the weekday of a day number n is
(n + 1) mod 7 in the Sunday-first scheme. -/
def getUTCDay (d : JSDate) : Int := (d.day + 1) % 7

/-- RELATIVE_DAYS of src/commands/resolve.ts: relative day words and
their signed day offsets. -/
def RELATIVE_DAYS : List (String × Int) :=
  [("امروز", 0),
   ("دیروز", -1),
   ("پریروز", -2),
   ("فردا", 1),
   ("پس‌فردا", 2),
   ("پسفردا", 2)]

/-- WEEKDAYS of src/commands/resolve.ts: weekday words mapped to the
0-indexed Sunday-first weekday scheme of getUTCDay (Saturday, the Persian
week start, maps to 6). -/
def WEEKDAYS : List (String × Int) :=
  [("شنبه", 6),
   ("یکشنبه", 0),
   ("یک‌شنبه", 0),
   ("دوشنبه", 1),
   ("سه‌شنبه", 2),
   ("سه شنبه", 2),
   ("چهارشنبه", 3),
   ("چهار‌شنبه", 3),
   ("پنجشنبه", 4),
   ("پنج‌شنبه", 4),
   ("جمعه", 5)]

/-- resolveRelativeDate of src/commands/resolve.ts: a relative day word
shifts the reference date by its offset; a weekday word moves to the most
recent past occurrence of that weekday (a positive forward difference is
pulled back a week, and a zero difference becomes a full week back).  The
time of day of the reference is preserved, as setUTCDate preserves it. -/
def resolveRelativeDate (relativeStr : String) (referenceDate : JSDate) : Option JSDate :=
  let normalized := jsTrim relativeStr
  match RELATIVE_DAYS.lookup normalized with
  | some off => some ⟨referenceDate.day + off, referenceDate.msOfDay⟩
  | none =>
    match WEEKDAYS.lookup normalized with
    | some targetDay =>
      let currentDay := getUTCDay referenceDate
      let diff0 := targetDay - currentDay
      let diff1 := if diff0 > 0 then diff0 - 7 else diff0
      let diff := if diff1 == 0 then -7 else diff1
      some ⟨referenceDate.day + diff, referenceDate.msOfDay⟩
    | none => none

/-- Is the character a digit of the caption numeric date pattern: an
ASCII digit or a Persian-script digit U+06F0 to U+06F9. -/
def isPDigitCh (c : Char) : Bool := isDigitCh c || (0x6F0 ≤ c.toNat && c.toNat ≤ 0x6F9)

/-- Length of a match of the caption numeric date pattern (4 digits,
separator, 1-2 digits, separator, 1-2 digits, over ASCII or Persian
digits) anchored at the head of the list, with the same greedy
backtracking as numTripleAt. -/
def numLenAt (cs : List Char) : Option Nat :=
  match cs with
  | y1 :: y2 :: y3 :: y4 :: s1 :: rest =>
    if isPDigitCh y1 && isPDigitCh y2 && isPDigitCh y3 && isPDigitCh y4 && isSepCh s1 then
      match rest with
      | m1 :: m2 :: rest2 =>
        if isPDigitCh m1 then
          if isSepCh m2 then
            match rest2 with
            | d1 :: d2 :: _ =>
              if isPDigitCh d1 then some (if isPDigitCh d2 then 9 else 8) else none
            | [d1] => if isPDigitCh d1 then some 8 else none
            | [] => none
          else if isPDigitCh m2 then
            match rest2 with
            | s2 :: rest3 =>
              if isSepCh s2 then
                match rest3 with
                | d1 :: d2 :: _ =>
                  if isPDigitCh d1 then some (if isPDigitCh d2 then 10 else 9) else none
                | [d1] => if isPDigitCh d1 then some 9 else none
                | [] => none
              else none
            | [] => none
          else none
        else none
      | _ => none
    else none
  | _ => none

/-- Global scan of the caption numeric date pattern: collect the matched
substrings left to right, resuming after the end of each match, as a JS
global regex does. -/
def numScan : List Char → List String
  | [] => []
  | c :: rest =>
    match numLenAt (c :: rest) with
    | some k => String.mk ((c :: rest).take k) :: numScan (rest.drop (k - 1))
    | none => numScan rest
termination_by l => l.length
decreasing_by
  · simp only [List.length_drop, List.length_cons]
    omega
  · simp [List.length_cons]

/-- extractDatesFromCaption of src/commands/resolve.ts: on a non-empty
caption, collect numeric date matches, then a 50-character window around
each standalone-word month name, then every relative day word contained
in the caption. -/
def extractDatesFromCaption (caption : String) : List String :=
  if caption == "" then []
  else
    let numeric := numScan caption.data
    let monthSegs := JALALI_MONTHS.foldr (fun p acc =>
      match findMonthAsWholeWord caption p.1 with
      | none => acc
      | some idx =>
        let start := idx - 50
        let stop := min caption.data.length (idx + p.1.data.length + 50)
        String.mk ((caption.data.drop start).take (stop - start)) :: acc) []
    let rels := RELATIVE_DAYS.foldr (fun p acc =>
      if containsSub caption p.1 then p.1 :: acc else acc) []
    numeric ++ monthSegs ++ rels

/-- Decimal digits of a natural number (auxiliary, with fuel). -/
def natDigitsAux : Nat → Nat → List Char
  | 0, _ => []
  | fuel + 1, n =>
    if n < 10 then [Char.ofNat (n + '0'.toNat)]
    else natDigitsAux fuel (n / 10) ++ [Char.ofNat (n % 10 + '0'.toNat)]

/-- Decimal rendering of a natural number, left-padded with zeros to the
given width (the moment YYYY/MM/DD style field rendering). -/
def natPad (width n : Nat) : String :=
  let ds := natDigitsAux (n + 1) n
  String.mk (List.replicate (width - ds.length) '0' ++ ds)

/-- The YYYY-MM-DD rendering of the UTC day of a day number, the date
part of Date.prototype.toISOString. -/
def gregorianDayString (jdn : Int) : String :=
  let g := d2g jdn
  natPad 4 g.1.toNat ++ "-" ++ natPad 2 g.2.1.toNat ++ "-" ++ natPad 2 g.2.2.toNat

/-- toGregorianString of src/commands/resolve.ts: the date part of the
ISO string of the date, i.e. its UTC calendar day. -/
def toGregorianString (date : JSDate) : String := gregorianDayString date.day

/-- toJalaliString of src/commands/resolve.ts: format the UTC day of the
date as a jYYYY/jMM/jDD Persian calendar string. -/
def toJalaliString (date : JSDate) : String :=
  let j := d2j date.day
  natPad 4 j.1.toNat ++ "/" ++ natPad 2 j.2.1.toNat ++ "/" ++ natPad 2 j.2.2.toNat

/-- Provenance tag of a resolved date (the source field of ResolvedDates
in src/types.ts, plus the caption tag the resolve command assigns). -/
inductive DateSource where
  | jalali
  | relative
  | caption
  | telegram_fallback
deriving DecidableEq

/-- resolved_dates record assigned by the resolve command. -/
structure ResolvedDates where
  gregorian : String
  jalali : String
  source : DateSource
deriving DecidableEq

/-- The slice of an album record the resolve command reads. -/
structure AlbumLite where
  telegram_date : JSDate
  analysisDates : Option (List String)
  caption_fa : String

/-- First date string of the list that parses, together with its
provenance: parseJalaliDate is attempted before resolveRelativeDate on
each string, and the first success stops the scan. -/
def tryDateStrings (telegramDate : JSDate) (tag1 tag2 : DateSource) :
    List String → Option (JSDate × DateSource)
  | [] => none
  | s :: rest =>
    match parseJalaliDate s (some telegramDate.day) with
    | some n => some (⟨n, 0⟩, tag1)
    | none =>
      match resolveRelativeDate s telegramDate with
      | some dt => some (dt, tag2)
      | none => tryDateStrings telegramDate tag1 tag2 rest

/-- Per-album date resolution of the resolve command
(src/commands/resolve.ts): try the AI-extracted date strings, then the
caption fallback on a non-empty caption, and finally fall back to the
album's own telegram_date with the telegram_fallback tag.  A record is
always assigned; the origin-timestamp fallback lives in this command
itself. -/
def resolveAlbumDates (album : AlbumLite) : ResolvedDates :=
  let telegramDate := album.telegram_date
  let fromAI :=
    match album.analysisDates with
    | some ds => tryDateStrings telegramDate .jalali .relative ds
    | none => none
  let fromCaption :=
    match fromAI with
    | some r => some r
    | none =>
      if album.caption_fa == "" then none
      else tryDateStrings telegramDate .caption .caption (extractDatesFromCaption album.caption_fa)
  let final :=
    match fromCaption with
    | some r => r
    | none => (telegramDate, .telegram_fallback)
  { gregorian := toGregorianString final.1
    jalali := toJalaliString final.1
    source := final.2 }

/-- Coordinate pair of a gazetteer entry.  The pipeline only ever copies
coordinates (never computes with them), so their numeric type is
immaterial; they are carried as integers here. -/
structure Coord where
  lat : Int
  lon : Int
deriving DecidableEq

/-- Bilingual province names attached to a city. -/
structure ProvinceInfo where
  province_fa : String
  province_en : String
deriving DecidableEq

/-- LocationInfo of src/types.ts: sparse bilingual location record; a
missing field means the level was not mentioned, and empty-string values
do not arise, so JS falsiness is modelled by none. -/
structure LocationInfo where
  country_fa : Option String := none
  country_en : Option String := none
  province_fa : Option String := none
  province_en : Option String := none
  city_fa : Option String := none
  city_en : Option String := none
  area_fa : Option String := none
  area_en : Option String := none
  lat : Option Int := none
  lon : Option Int := none
deriving DecidableEq

/-- A row of the locations table as delivered by the loadData query of
IranLocationsDB (src/commands/geocode.ts): name_en is non-null there
because the query filters on it, and the rows arrive ordered by
population descending (sortedness is carried as a hypothesis where it
matters). -/
structure LocRow where
  name_fa : String
  name_en : String
  latitude : Int
  longitude : Int
  population : Int
  admin_level : Int
deriving DecidableEq

/-- Loop body of IranLocationsDB.loadData: walk the rows in query order;
the first row carrying a given Persian name wins the translation map
entry, and its coordinates are recorded when both are truthy (nonzero).
Rows whose name was already seen are skipped entirely. -/
def loadDataAux : List LocRow → List (String × String) → List (String × Coord) →
    List (String × String) × List (String × Coord)
  | [], t, c => (t, c)
  | r :: rest, t, c =>
    if (t.lookup r.name_fa).isSome then loadDataAux rest t c
    else
      loadDataAux rest (t ++ [(r.name_fa, r.name_en)])
        (if r.latitude != 0 && r.longitude != 0 then c ++ [(r.name_fa, ⟨r.latitude, r.longitude⟩)] else c)

/-- IranLocationsDB.loadData of src/commands/geocode.ts, applied to the
query result rows: builds the first-inserted-wins translation and
coordinate maps. -/
def loadData (rows : List LocRow) : List (String × String) × List (String × Coord) :=
  loadDataAux rows [] []

/-- In-memory lookup maps of IranLocationsDB. -/
structure IranLocationsDB where
  translations : List (String × String)
  coordinates : List (String × Coord)
  cityToProvince : List (String × ProvinceInfo)

/-- IranLocationsDB.getEnglish. -/
def IranLocationsDB.getEnglish (db : IranLocationsDB) (persianName : String) : Option String :=
  db.translations.lookup persianName

/-- IranLocationsDB.getCoordinates. -/
def IranLocationsDB.getCoordinates (db : IranLocationsDB) (persianName : String) : Option Coord :=
  db.coordinates.lookup persianName

/-- IranLocationsDB.getProvinceForCity. -/
def IranLocationsDB.getProvinceForCity (db : IranLocationsDB) (cityFa : String) :
    Option ProvinceInfo :=
  db.cityToProvince.lookup cityFa

/-- PERSIAN_TO_ENGLISH of src/commands/geocode.ts: the hardcoded fallback
translation table, used when the database has no entry for a name. -/
def PERSIAN_TO_ENGLISH : List (String × String) :=
  [("تهران", "Tehran"), ("اصفهان", "Isfahan"), ("شیراز", "Shiraz"),
   ("مشهد", "Mashhad"), ("تبریز", "Tabriz"), ("کرج", "Karaj"),
   ("قم", "Qom"), ("اهواز", "Ahvaz"), ("کرمان", "Kerman"),
   ("رشت", "Rasht"), ("همدان", "Hamadan"), ("یزد", "Yazd"),
   ("کرمانشاه", "Kermanshah"), ("ارومیه", "Urmia"), ("زاهدان", "Zahedan"),
   ("سنندج", "Sanandaj"), ("بندرعباس", "Bandar Abbas"), ("اردبیل", "Ardabil"),
   ("قزوین", "Qazvin"), ("زنجان", "Zanjan"), ("گرگان", "Gorgan"),
   ("ساری", "Sari"), ("بوشهر", "Bushehr"), ("خرم‌آباد", "Khorramabad"),
   ("خرمآباد", "Khorramabad"),
   ("آمل", "Amol"), ("بابل", "Babol"), ("نوشهر", "Nowshahr"),
   ("چالوس", "Chalus"), ("تنکابن", "Tonekabon"), ("رامسر", "Ramsar"),
   ("بابلسر", "Babolsar"), ("قائمشهر", "Ghaemshahr"),
   ("لاهیجان", "Lahijan"), ("انزلی", "Anzali"), ("بندر انزلی", "Bandar Anzali"),
   ("آستارا", "Astara"), ("کاشان", "Kashan"), ("نیشابور", "Nishapur"),
   ("سبزوار", "Sabzevar"), ("بیرجند", "Birjand"),
   ("آبادان", "Abadan"), ("خرمشهر", "Khorramshahr"), ("دزفول", "Dezful"),
   ("مراغه", "Maragheh"), ("مرند", "Marand"), ("خوی", "Khoy"),
   ("مهاباد", "Mahabad"), ("ایلام", "Ilam"), ("بجنورد", "Bojnord"),
   ("یاسوج", "Yasuj"), ("شهرکرد", "Shahrekord"), ("سمنان", "Semnan"),
   ("صادقیه", "Sadeghieh"), ("نارمک", "Narmak"), ("ونک", "Vanak"),
   ("تجریش", "Tajrish"), ("ولیعصر", "Valiasr"), ("پونک", "Punak"),
   ("سعادت‌آباد", "Saadat Abad"), ("سعادتآباد", "Saadat Abad"),
   ("تهرانپارس", "Tehranpars"), ("تهران‌پارس", "Tehranpars"),
   ("پیروزی", "Piroozi"), ("شهرک غرب", "Shahrak-e Gharb"),
   ("اکباتان", "Ekbatan"), ("شهران", "Shahran"), ("ستارخان", "Sattarkhan"),
   ("آزادی", "Azadi"), ("انقلاب", "Enghelab"), ("یوسف‌آباد", "Yousefabad"),
   ("میرداماد", "Mirdamad"), ("الهیه", "Elahieh"), ("زعفرانیه", "Zafaraniyeh"),
   ("نیاوران", "Niavaran"), ("فرمانیه", "Farmaniyeh"), ("قیطریه", "Gheytarieh"),
   ("پاسداران", "Pasdaran"), ("شریعتی", "Shariati"),
   ("آریاشهر", "Ariashahr"), ("جنت‌آباد", "Jannat Abad"), ("جنتآباد", "Jannat Abad"),
   ("اراک", "Arak"), ("بروجرد", "Borujerd"), ("اسلامشهر", "Eslamshahr"), ("فردیس", "Fardis"),
   ("گیلان", "Gilan"), ("مازندران", "Mazandaran"),
   ("آذربایجان شرقی", "East Azerbaijan"), ("آذربایجان غربی", "West Azerbaijan"),
   ("خراسان رضوی", "Razavi Khorasan"), ("فارس", "Fars"),
   ("خوزستان", "Khuzestan"), ("البرز", "Alborz"),
   ("ایران", "Iran")]

/-- CITY_PROVINCE of src/commands/geocode.ts: hardcoded province mapping
for major cities, taking precedence over the database lookup. -/
def CITY_PROVINCE : List (String × ProvinceInfo) :=
  [("تهران", ⟨"استان تهران", "Tehran Province"⟩),
   ("مشهد", ⟨"استان خراسان رضوی", "Razavi Khorasan Province"⟩),
   ("اصفهان", ⟨"استان اصفهان", "Isfahan Province"⟩),
   ("شیراز", ⟨"استان فارس", "Fars Province"⟩),
   ("تبریز", ⟨"استان آذربایجان شرقی", "East Azerbaijan Province"⟩),
   ("کرج", ⟨"استان البرز", "Alborz Province"⟩),
   ("قم", ⟨"استان قم", "Qom Province"⟩),
   ("اهواز", ⟨"استان خوزستان", "Khuzestan Province"⟩),
   ("کرمان", ⟨"استان کرمان", "Kerman Province"⟩),
   ("رشت", ⟨"استان گیلان", "Gilan Province"⟩),
   ("همدان", ⟨"استان همدان", "Hamadan Province"⟩),
   ("یزد", ⟨"استان یزد", "Yazd Province"⟩),
   ("کرمانشاه", ⟨"استان کرمانشاه", "Kermanshah Province"⟩),
   ("ارومیه", ⟨"استان آذربایجان غربی", "West Azerbaijan Province"⟩),
   ("زاهدان", ⟨"استان سیستان و بلوچستان", "Sistan and Baluchestan Province"⟩),
   ("سنندج", ⟨"استان کردستان", "Kurdistan Province"⟩),
   ("بندرعباس", ⟨"استان هرمزگان", "Hormozgan Province"⟩),
   ("اردبیل", ⟨"استان اردبیل", "Ardabil Province"⟩),
   ("قزوین", ⟨"استان قزوین", "Qazvin Province"⟩),
   ("زنجان", ⟨"استان زنجان", "Zanjan Province"⟩),
   ("گرگان", ⟨"استان گلستان", "Golestan Province"⟩),
   ("ساری", ⟨"استان مازندران", "Mazandaran Province"⟩),
   ("بوشهر", ⟨"استان بوشهر", "Bushehr Province"⟩),
   ("خرم‌آباد", ⟨"استان لرستان", "Lorestan Province"⟩),
   ("خرمآباد", ⟨"استان لرستان", "Lorestan Province"⟩),
   ("کاشان", ⟨"استان اصفهان", "Isfahan Province"⟩),
   ("نیشابور", ⟨"استان خراسان رضوی", "Razavi Khorasan Province"⟩),
   ("سبزوار", ⟨"استان خراسان رضوی", "Razavi Khorasan Province"⟩),
   ("بیرجند", ⟨"استان خراسان جنوبی", "South Khorasan Province"⟩),
   ("آبادان", ⟨"استان خوزستان", "Khuzestan Province"⟩),
   ("خرمشهر", ⟨"استان خوزستان", "Khuzestan Province"⟩),
   ("دزفول", ⟨"استان خوزستان", "Khuzestan Province"⟩),
   ("ایلام", ⟨"استان ایلام", "Ilam Province"⟩),
   ("بجنورد", ⟨"استان خراسان شمالی", "North Khorasan Province"⟩),
   ("یاسوج", ⟨"استان کهگیلویه و بویراحمد", "Kohgiluyeh and Boyer-Ahmad Province"⟩),
   ("شهرکرد", ⟨"استان چهارمحال و بختیاری", "Chaharmahal and Bakhtiari Province"⟩),
   ("سمنان", ⟨"استان سمنان", "Semnan Province"⟩),
   ("ورامین", ⟨"استان تهران", "Tehran Province"⟩),
   ("نظرآباد", ⟨"استان البرز", "Alborz Province"⟩),
   ("آمل", ⟨"استان مازندران", "Mazandaran Province"⟩),
   ("بابل", ⟨"استان مازندران", "Mazandaran Province"⟩),
   ("قائمشهر", ⟨"استان مازندران", "Mazandaran Province"⟩),
   ("لاهیجان", ⟨"استان گیلان", "Gilan Province"⟩),
   ("مهاباد", ⟨"استان آذربایجان غربی", "West Azerbaijan Province"⟩),
   ("خوی", ⟨"استان آذربایجان غربی", "West Azerbaijan Province"⟩),
   ("مراغه", ⟨"استان آذربایجان شرقی", "East Azerbaijan Province"⟩),
   ("مرند", ⟨"استان آذربایجان شرقی", "East Azerbaijan Province"⟩),
   ("اراک", ⟨"استان مرکزی", "Markazi Province"⟩),
   ("بروجرد", ⟨"استان لرستان", "Lorestan Province"⟩),
   ("اسلامشهر", ⟨"استان تهران", "Tehran Province"⟩),
   ("فردیس", ⟨"استان البرز", "Alborz Province"⟩)]

/-- translateName of src/commands/geocode.ts: translate a Persian name
via the database first, then the hardcoded table, else leave it
untranslated. -/
def translateName (persianName : Option String) (locationsDB : IranLocationsDB) :
    Option String :=
  match persianName with
  | none => none
  | some s =>
    match locationsDB.getEnglish s with
    | some en => some en
    | none => PERSIAN_TO_ENGLISH.lookup s

/-- Result of resolveFromDB, with the final value of the input record
threaded through explicitly: the source never assigns to the locations
argument, which the locationsAfter component makes checkable. -/
structure GeoResolveResult where
  locationsAfter : LocationInfo
  geocoded : LocationInfo
  untranslated : List String
deriving DecidableEq

/-- resolveFromDB of src/commands/geocode.ts, statement by statement.  A
foreign candidate (country سایر / Other) passes city data through with
only a translateName attempt; a domestic candidate gets city translation,
province (hardcoded override first, then database, then the candidate's
own), city coordinates, then area translation and, when available,
area coordinates overriding the city ones.  Names that neither source
translates are appended to the untranslated list in encounter order. -/
def resolveFromDB (locations : LocationInfo) (locationsDB : IranLocationsDB) :
    GeoResolveResult :=
  let gBase : LocationInfo :=
    { country_fa := some (locations.country_fa.getD "ایران")
      country_en := some (locations.country_en.getD "Iran") }
  if gBase.country_fa == some "سایر" || gBase.country_en == some "Other" then
    let g1 := { gBase with country_fa := some "سایر", country_en := some "Other" }
    match locations.city_fa with
    | some cityFa =>
      let cityEn :=
        match locations.city_en with
        | some en => some en
        | none => translateName (some cityFa) locationsDB
      let g2 := { g1 with city_fa := some cityFa, city_en := cityEn }
      let u := if cityEn.isNone then [cityFa] else []
      ⟨locations, g2, u⟩
    | none => ⟨locations, g1, []⟩
  else
    let cityStep : LocationInfo × List String :=
      match locations.city_fa with
      | some cityFa =>
        let cityEn :=
          match locations.city_en with
          | some en => some en
          | none => translateName (some cityFa) locationsDB
        let u1 := if cityEn.isNone then [cityFa] else []
        let g1 := { gBase with city_fa := some cityFa, city_en := cityEn }
        let provStep : LocationInfo × List String :=
          match
            (match CITY_PROVINCE.lookup cityFa with
             | some p => some p
             | none => locationsDB.getProvinceForCity cityFa) with
          | some p =>
            ({ g1 with province_fa := some p.province_fa, province_en := some p.province_en }, u1)
          | none =>
            match locations.province_fa with
            | some provFa =>
              let provEn :=
                match locations.province_en with
                | some en => some en
                | none => translateName (some provFa) locationsDB
              ({ g1 with province_fa := some provFa, province_en := provEn },
               u1 ++ if provEn.isNone then [provFa] else [])
            | none => (g1, u1)
        let g2 := provStep.1
        let g3 :=
          match locationsDB.getCoordinates cityFa with
          | some coords => { g2 with lat := some coords.lat, lon := some coords.lon }
          | none => g2
        (g3, provStep.2)
      | none => (gBase, [])
    let areaStep : LocationInfo × List String :=
      match locations.area_fa with
      | some areaFa =>
        let areaEn :=
          match locations.area_en with
          | some en => some en
          | none => translateName (some areaFa) locationsDB
        let g4 := { cityStep.1 with area_fa := some areaFa, area_en := areaEn }
        let u2 := cityStep.2 ++ if areaEn.isNone then [areaFa] else []
        let g5 :=
          match locationsDB.getCoordinates areaFa with
          | some coords => { g4 with lat := some coords.lat, lon := some coords.lon }
          | none => g4
        (g5, u2)
      | none => cityStep
    ⟨locations, areaStep.1, areaStep.2⟩

/-- GeoNames entry fields that the ingestion filter and admin-level
assignment of scripts/download-locations.ts consult (the remaining
tab-separated fields play no role in the kept/dropped decision). -/
structure GeoEntry where
  feature_class : String
  feature_code : String
  population : Int
deriving DecidableEq

/-- PLACE_FEATURE_CODES of scripts/download-locations.ts. -/
def PLACE_FEATURE_CODES : List String :=
  ["PPL", "PPLA", "PPLA2", "PPLA3", "PPLA4", "PPLC", "PPLG",
   "PPLL", "PPLQ", "PPLR", "PPLS", "PPLW", "PPLX"]

/-- ADMIN_FEATURE_CODES of scripts/download-locations.ts. -/
def ADMIN_FEATURE_CODES : List String := ["ADM1"]

/-- The keep condition of parseGeoNames (scripts/download-locations.ts):
a populated place, or a first-order administrative division. -/
def keepGeoEntry (e : GeoEntry) : Bool :=
  (e.feature_class == "P" && PLACE_FEATURE_CODES.contains e.feature_code)
  || (e.feature_class == "A" && ADMIN_FEATURE_CODES.contains e.feature_code)

/-- parseGeoNames of scripts/download-locations.ts, restricted to its
selection behavior: the entries kept from the dump. -/
def parseGeoNamesKept (entries : List GeoEntry) : List GeoEntry :=
  entries.filter keepGeoEntry

/-- getAdminLevel of scripts/download-locations.ts: admin level derived
from the feature code, with population only promoting large places to
level 2. -/
def getAdminLevel (featureCode : String) (population : Int) : Int :=
  if featureCode == "ADM1" then 0
  else if ["PPLC", "PPLA", "PPLG"].contains featureCode then 1
  else if ["PPLA2", "PPLA3"].contains featureCode then 1
  else if featureCode == "PPLA4" || population ≥ 50000 then 2
  else if featureCode == "PPLX" then 3
  else if featureCode == "PPLL" then 3
  else 2

/-- A successful association-list lookup exhibits a member pair. -/
theorem mem_of_lookup {α β : Type} [BEq α] [LawfulBEq α] {l : List (α × β)} {k : α} {b : β}
    (h : l.lookup k = some b) : (k, b) ∈ l := by
  rcases List.lookup_eq_some_iff.1 h with ⟨l₁, l₂, rfl, -⟩
  simp

/-- Looking up a name in the translation map built by loadData finds the
first query row carrying that name: first-inserted wins, on top of
whatever the accumulator already holds. -/
theorem loadDataAux_fst_lookup (rows : List LocRow) :
    ∀ (t : List (String × String)) (c : List (String × Coord)) (n : String),
      (loadDataAux rows t c).1.lookup n =
        (t.lookup n).or ((rows.find? fun r => r.name_fa == n).map (·.name_en)) := by
  induction rows with
  | nil => intro t c n; simp [loadDataAux]
  | cons r rest ih =>
    intro t c n
    by_cases hr : (t.lookup r.name_fa).isSome
    · rw [show loadDataAux (r :: rest) t c = loadDataAux rest t c by
        simp [loadDataAux, hr]]
      rw [ih]
      by_cases hn : r.name_fa == n
      · rcases Option.isSome_iff_exists.1 hr with ⟨v, hv⟩
        have hn' : r.name_fa = n := by simpa using hn
        subst hn'
        rw [hv]
        simp
      · rw [List.find?_cons_of_neg _ (by simpa using hn)]
    · rw [show loadDataAux (r :: rest) t c =
          loadDataAux rest (t ++ [(r.name_fa, r.name_en)])
            (if r.latitude != 0 && r.longitude != 0 then
              c ++ [(r.name_fa, ⟨r.latitude, r.longitude⟩)] else c) by
        simp [loadDataAux, hr]]
      rw [ih]
      rw [List.lookup_append]
      by_cases hn : r.name_fa == n
      · have hn' : r.name_fa = n := by simpa using hn
        subst hn'
        rw [List.find?_cons_of_pos _ (by simp)]
        rw [List.lookup_cons_self, Option.or_assoc]
        simp
      · have hnn : (n == r.name_fa) = false := beq_eq_false_iff_ne.2 fun h => hn (by simp [h])
        rw [List.find?_cons_of_neg _ (by simpa using hn)]
        simp [List.lookup_cons, hnn, Option.or_none]

/-- The translation map of loadData resolves a name to the first query
row carrying it. -/
theorem loadData_lookup (rows : List LocRow) (n : String) :
    (loadData rows).1.lookup n =
      (rows.find? fun r => r.name_fa == n).map (·.name_en) := by
  simpa [loadData] using loadDataAux_fst_lookup rows [] [] n

/-- C2, amended.  Over rows ordered by population descending (as the
loadData query delivers them), a name resolves to the entry of largest
population among the rows carrying that name, whatever its admin level:
the query orders by population alone and never consults admin_level, so
no city-over-province preference exists. -/
theorem loadData_resolves_to_max_population (rows : List LocRow) (r : LocRow)
    (hsorted : rows.Pairwise fun a b => b.population ≤ a.population)
    (hr : r ∈ rows)
    (hmax : ∀ s ∈ rows, s.name_fa = r.name_fa → s ≠ r → s.population < r.population) :
    (loadData rows).1.lookup r.name_fa = some r.name_en := by
  rw [loadData_lookup]
  suffices h : (rows.find? fun s => s.name_fa == r.name_fa) = some r by rw [h]; rfl
  induction rows with
  | nil => cases hr
  | cons x rest ih =>
    rcases List.pairwise_cons.1 hsorted with ⟨hx, hrest⟩
    by_cases hname : x.name_fa = r.name_fa
    · have hxr : x = r := by
        by_contra hne
        have h1 : r.population ≤ x.population := by
          rcases List.mem_cons.1 hr with h | h
          · exact absurd h.symm hne
          · exact hx r h
        have h2 : x.population < r.population :=
          hmax x (List.mem_cons_self x rest) hname hne
        omega
      subst hxr
      exact List.find?_cons_of_pos _ (by simp)
    · rw [List.find?_cons_of_neg _ (by simpa using hname)]
      have hr' : r ∈ rest := by
        rcases List.mem_cons.1 hr with h | h
        · exact absurd (congrArg LocRow.name_fa h.symm) hname
        · exact h
      exact ih hrest hr' fun s hs hsn hsr => hmax s (List.mem_cons_of_mem x hs) hsn hsr

/-- C2, counterexample to the claim as stated.  A gazetteer holding
Tehran both as a province row (admin level 0, the larger population, as
in the GeoNames dump) and as a city row (admin level 1) resolves the bare
name to the province entry, because loadData orders by population only:
the city-level interpretation loses. -/
theorem loadData_province_shadows_city :
    ([⟨"تهران", "Ostan-e Tehran", 35, 51, 13267637, 0⟩,
      ⟨"تهران", "Tehran", 35, 51, 7153309, 1⟩] : List LocRow).Pairwise
        (fun a b => b.population ≤ a.population) ∧
    (loadData [⟨"تهران", "Ostan-e Tehran", 35, 51, 13267637, 0⟩,
               ⟨"تهران", "Tehran", 35, 51, 7153309, 1⟩]).1.lookup "تهران" =
      some "Ostan-e Tehran" ∧
    some "Ostan-e Tehran" ≠ some "Tehran" := by
  refine ⟨by decide, by decide, by decide⟩

/-- C2 witness: when the city row strictly outweighs every same-named
row, the amended theorem resolves the name to that city row. -/
theorem loadData_resolves_to_max_population_witness :
    (loadData [⟨"تهران", "Tehran", 35, 51, 7153309, 1⟩,
               ⟨"تهران", "Ostan-e Tehran", 35, 51, 1000, 0⟩]).1.lookup
      (LocRow.name_fa ⟨"تهران", "Tehran", 35, 51, 7153309, 1⟩) =
      some (LocRow.name_en ⟨"تهران", "Tehran", 35, 51, 7153309, 1⟩) :=
  loadData_resolves_to_max_population _ _ (by decide) (by decide) (by decide)

/-- C8, amended.  The GeoNames ingestion keeps exactly the entries whose
feature category is populated-place or first-order administrative
division; no population filtering takes place at any admin level, so the
keep decision is independent of the population field. -/
theorem parseGeoNames_keeps_feature_coded_entries : ∀ (entries : List GeoEntry) (e : GeoEntry),
    (e ∈ parseGeoNamesKept entries ↔
      (e ∈ entries ∧
        ((e.feature_class = "P" ∧ e.feature_code ∈ PLACE_FEATURE_CODES) ∨
         (e.feature_class = "A" ∧ e.feature_code ∈ ADMIN_FEATURE_CODES)))) ∧
    (∀ p : Int, keepGeoEntry ⟨e.feature_class, e.feature_code, p⟩ = keepGeoEntry e) := by
  intro entries e
  constructor
  · rw [parseGeoNamesKept, List.mem_filter]
    simp [keepGeoEntry, List.contains_iff_exists_mem_beq, beq_iff_eq]
  · intro p
    rfl

/-- C8, counterexample to the claimed population filter: a plain
populated place (feature code PPL) of population 0 — below any positive
minimum threshold — whose admin level is 2 (neither neighborhood level 3
nor province level 0) is kept by the ingestion filter. -/
theorem parseGeoNames_keeps_zero_population_ppl :
    keepGeoEntry ⟨"P", "PPL", 0⟩ = true ∧
    getAdminLevel "PPL" 0 = 2 ∧
    parseGeoNamesKept [⟨"P", "PPL", 0⟩] = [⟨"P", "PPL", 0⟩] := by
  refine ⟨by decide, by decide, by decide⟩

/-- C10: resolveFromDB never writes to its input record; the final value
of the locations argument threaded through the translation equals the
input, every field included.  The geocoded record and untranslated list
are built afresh alongside it. -/
theorem resolveFromDB_preserves_input (locations : LocationInfo) (db : IranLocationsDB) :
    (resolveFromDB locations db).locationsAfter = locations := by
  unfold resolveFromDB
  dsimp only
  split <;> first | rfl | (split <;> rfl)

/-- C6: for a domestic candidate resolving both a city and an area whose
coordinates the gazetteer knows, the output coordinates are the area's,
never the city's: the area block runs after the city block and overwrites
lat/lon whenever area coordinates exist. -/
theorem resolveFromDB_area_coords_win (locations : LocationInfo) (db : IranLocationsDB)
    (cityFa areaFa : String) (pa : Coord)
    (hcity : locations.city_fa = some cityFa)
    (harea : locations.area_fa = some areaFa)
    (hfa : locations.country_fa.getD "ایران" ≠ "سایر")
    (hen : locations.country_en.getD "Iran" ≠ "Other")
    (hpa : db.getCoordinates areaFa = some pa) :
    (resolveFromDB locations db).geocoded.lat = some pa.lat ∧
    (resolveFromDB locations db).geocoded.lon = some pa.lon ∧
    (resolveFromDB locations db).geocoded.area_fa = some areaFa ∧
    (resolveFromDB locations db).geocoded.city_fa = some cityFa := by
  have hcond : ((some (locations.country_fa.getD "ایران") == some "سایر") ||
      (some (locations.country_en.getD "Iran") == some "Other")) = false := by
    simp [hfa, hen]
  unfold resolveFromDB
  dsimp only
  rw [hcond]
  simp only [Bool.false_eq_true, if_false]
  rw [hcity, harea]
  dsimp only
  rw [hpa]
  dsimp only
  refine ⟨rfl, rfl, rfl, ?_⟩
  repeat' split
  all_goals rfl

/-- C6 witness: a Tehran candidate with the Narmak neighborhood; the
gazetteer has coordinates for both levels, and the output carries
Narmak's, not Tehran's. -/
theorem resolveFromDB_area_coords_win_witness :
    (resolveFromDB { city_fa := some "تهران", area_fa := some "نارمک" }
        ⟨[], [("تهران", ⟨35, 51⟩), ("نارمک", ⟨36, 52⟩)], []⟩).geocoded.lat =
      some (Coord.lat ⟨36, 52⟩) ∧
    (resolveFromDB { city_fa := some "تهران", area_fa := some "نارمک" }
        ⟨[], [("تهران", ⟨35, 51⟩), ("نارمک", ⟨36, 52⟩)], []⟩).geocoded.lon =
      some (Coord.lon ⟨36, 52⟩) ∧
    (resolveFromDB { city_fa := some "تهران", area_fa := some "نارمک" }
        ⟨[], [("تهران", ⟨35, 51⟩), ("نارمک", ⟨36, 52⟩)], []⟩).geocoded.area_fa = some "نارمک" ∧
    (resolveFromDB { city_fa := some "تهران", area_fa := some "نارمک" }
        ⟨[], [("تهران", ⟨35, 51⟩), ("نارمک", ⟨36, 52⟩)], []⟩).geocoded.city_fa = some "تهران" :=
  resolveFromDB_area_coords_win _ _ "تهران" "نارمک" ⟨36, 52⟩
    (by decide) (by decide) (by decide) (by decide) (by decide)

/-- C7, amended.  A foreign candidate passes country and city through
with the country pinned to سایر/Other, translates the city via
translateName — which consults the gazetteer first and only then the
fixed table — and resolves no province and no coordinates.  The claim
that the gazetteer is never consulted for foreign city names does not
hold of the code. -/
theorem resolveFromDB_foreign_passthrough (locations : LocationInfo) (db : IranLocationsDB)
    (h : locations.country_fa.getD "ایران" = "سایر" ∨ locations.country_en.getD "Iran" = "Other") :
    (resolveFromDB locations db).geocoded.country_fa = some "سایر" ∧
    (resolveFromDB locations db).geocoded.country_en = some "Other" ∧
    (resolveFromDB locations db).geocoded.city_fa = locations.city_fa ∧
    (resolveFromDB locations db).geocoded.city_en =
      (if locations.city_fa.isSome then
        (match locations.city_en with
         | some en => some en
         | none => translateName locations.city_fa db)
       else none) ∧
    (resolveFromDB locations db).geocoded.province_fa = none ∧
    (resolveFromDB locations db).geocoded.province_en = none ∧
    (resolveFromDB locations db).geocoded.area_fa = none ∧
    (resolveFromDB locations db).geocoded.area_en = none ∧
    (resolveFromDB locations db).geocoded.lat = none ∧
    (resolveFromDB locations db).geocoded.lon = none := by
  have hcond : ((some (locations.country_fa.getD "ایران") == some "سایر") ||
      (some (locations.country_en.getD "Iran") == some "Other")) = true := by
    rcases h with h | h <;> simp [h]
  unfold resolveFromDB
  dsimp only
  rw [hcond]
  simp only [if_true]
  cases hc : locations.city_fa with
  | none => simp [translateName]
  | some cityFa => cases locations.city_en <;> simp [translateName]

/-- C7, counterexample to the claim as stated: a foreign candidate whose
city name the gazetteer knows gets its city_en from the gazetteer lookup
(the hardcoded table does not contain the name at all). -/
theorem resolveFromDB_foreign_consults_gazetteer :
    (resolveFromDB { country_fa := some "سایر", city_fa := some "پاریس" }
        ⟨[("پاریس", "Paris-from-DB")], [], []⟩).geocoded.city_en = some "Paris-from-DB" ∧
    (IranLocationsDB.getEnglish ⟨[("پاریس", "Paris-from-DB")], [], []⟩ "پاریس" =
      some "Paris-from-DB") ∧
    PERSIAN_TO_ENGLISH.lookup "پاریس" = none := by
  refine ⟨by decide, by decide, by decide⟩

/-- C7 witness for the amended theorem, at a foreign candidate. -/
theorem resolveFromDB_foreign_passthrough_witness :
    (resolveFromDB { country_fa := some "سایر", city_fa := some "پاریس" }
        ⟨[("پاریس", "Paris-from-DB")], [], []⟩).geocoded.country_fa = some "سایر" ∧
    (resolveFromDB { country_fa := some "سایر", city_fa := some "پاریس" }
        ⟨[("پاریس", "Paris-from-DB")], [], []⟩).geocoded.country_en = some "Other" ∧
    (resolveFromDB { country_fa := some "سایر", city_fa := some "پاریس" }
        ⟨[("پاریس", "Paris-from-DB")], [], []⟩).geocoded.city_fa =
      LocationInfo.city_fa { country_fa := some "سایر", city_fa := some "پاریس" } ∧
    (resolveFromDB { country_fa := some "سایر", city_fa := some "پاریس" }
        ⟨[("پاریس", "Paris-from-DB")], [], []⟩).geocoded.city_en =
      (if (LocationInfo.city_fa { country_fa := some "سایر", city_fa := some "پاریس" }).isSome then
        (match LocationInfo.city_en { country_fa := some "سایر", city_fa := some "پاریس" } with
         | some en => some en
         | none => translateName (LocationInfo.city_fa { country_fa := some "سایر", city_fa := some "پاریس" })
              ⟨[("پاریس", "Paris-from-DB")], [], []⟩)
       else none) ∧
    (resolveFromDB { country_fa := some "سایر", city_fa := some "پاریس" }
        ⟨[("پاریس", "Paris-from-DB")], [], []⟩).geocoded.province_fa = none ∧
    (resolveFromDB { country_fa := some "سایر", city_fa := some "پاریس" }
        ⟨[("پاریس", "Paris-from-DB")], [], []⟩).geocoded.province_en = none ∧
    (resolveFromDB { country_fa := some "سایر", city_fa := some "پاریس" }
        ⟨[("پاریس", "Paris-from-DB")], [], []⟩).geocoded.area_fa = none ∧
    (resolveFromDB { country_fa := some "سایر", city_fa := some "پاریس" }
        ⟨[("پاریس", "Paris-from-DB")], [], []⟩).geocoded.area_en = none ∧
    (resolveFromDB { country_fa := some "سایر", city_fa := some "پاریس" }
        ⟨[("پاریس", "Paris-from-DB")], [], []⟩).geocoded.lat = none ∧
    (resolveFromDB { country_fa := some "سایر", city_fa := some "پاریس" }
        ⟨[("پاریس", "Paris-from-DB")], [], []⟩).geocoded.lon = none :=
  resolveFromDB_foreign_passthrough _ _ (Or.inl (by decide))

/-- Facts about the weekday vocabulary, checked over the table: no
weekday word is also a relative-day word, and every weekday index lies in
0..6. -/
theorem weekday_table_facts :
    ∀ p ∈ WEEKDAYS, RELATIVE_DAYS.lookup p.1 = none ∧ 0 ≤ p.2 ∧ p.2 ≤ 6 := by decide

/-- A number congruent to t modulo 7 with t in 0..6 has remainder t. -/
theorem emod7_eq_of_dvd (x t : Int) (h0 : 0 ≤ t) (h7 : t < 7) (hd : (7 : Int) ∣ x - t) :
    x % 7 = t := by
  obtain ⟨k, hk⟩ := hd
  have hx : x = t + 7 * k := by omega
  rw [hx, Int.add_mul_emod_self_left, Int.emod_eq_of_lt h0 h7]

/-- C3: a weekday word resolves to the most recent strictly past
occurrence of that weekday: between 7 and 1 days before the reference,
carrying the target weekday, and exactly 7 days back when the target
equals the reference's own weekday — never the reference date itself.
The time of day is preserved. -/
theorem resolveRelativeDate_weekday_past (s : String) (ref : JSDate) (t : Int)
    (hw : WEEKDAYS.lookup (jsTrim s) = some t) :
    ∃ r, resolveRelativeDate s ref = some r ∧
      ref.day - 7 ≤ r.day ∧ r.day ≤ ref.day - 1 ∧
      getUTCDay r = t ∧
      (t = getUTCDay ref → r.day = ref.day - 7) ∧
      r.msOfDay = ref.msOfDay := by
  obtain ⟨hrel, ht0, ht6⟩ := weekday_table_facts _ (mem_of_lookup hw)
  have ht0' : (0 : Int) ≤ t := ht0
  have ht6' : t ≤ 6 := ht6
  unfold resolveRelativeDate
  dsimp only
  rw [hrel, hw]
  dsimp only
  have h0 : 0 ≤ (ref.day + 1) % 7 := Int.emod_nonneg _ (by norm_num)
  have h7 : (ref.day + 1) % 7 < 7 := Int.emod_lt_of_pos _ (by norm_num)
  refine ⟨_, rfl, ?_, ?_, ?_, ?_, rfl⟩ <;> simp only [getUTCDay, beq_iff_eq]
  · split_ifs <;> omega
  · split_ifs <;> omega
  · split_ifs <;> (apply emod7_eq_of_dvd _ _ ht0' (by omega)) <;> omega
  · intro ht
    split_ifs <;> omega

/-- C3 witness at the word جمعه (Friday, index 5) and a reference date
that itself falls on a Friday. -/
theorem resolveRelativeDate_weekday_past_witness :
    ∃ r, resolveRelativeDate "جمعه" ⟨2460000, 0⟩ = some r ∧
      (JSDate.day ⟨2460000, 0⟩) - 7 ≤ r.day ∧ r.day ≤ (JSDate.day ⟨2460000, 0⟩) - 1 ∧
      getUTCDay r = 5 ∧
      (5 = getUTCDay ⟨2460000, 0⟩ → r.day = (JSDate.day ⟨2460000, 0⟩) - 7) ∧
      r.msOfDay = JSDate.msOfDay ⟨2460000, 0⟩ :=
  resolveRelativeDate_weekday_past "جمعه" ⟨2460000, 0⟩ 5 (by decide)

/-- When every occurrence of the month name in the text touches
Persian/Arabic script on its left or right, the word-boundary search
rejects them all. -/
theorem findMonthAsWholeWord_eq_none_of_embedded (text mn : String)
    (h : ∀ i ∈ List.range (text.data.length + 1), occursAt text.data mn.data i = true →
      (i ≠ 0 ∧ persianAt text.data (i - 1) = true) ∨
      persianAt text.data (i + mn.data.length) = true) :
    findMonthAsWholeWord text mn = none := by
  unfold findMonthAsWholeWord
  rw [List.find?_eq_none]
  intro i hi hww
  simp only [wholeWordAt, Bool.and_eq_true, Bool.or_eq_true, Bool.not_eq_true'] at hww
  obtain ⟨⟨hocc, hbl⟩, hbr⟩ := hww
  rcases h i hi hocc with ⟨hne, hp⟩ | hp
  · rcases hbl with hz | hq
    · exact hne (by simpa using hz)
    · rw [hp] at hq; cases hq
  · rw [hp] at hbr; cases hbr

/-- The month loop yields nothing when no month name passes the
word-boundary check. -/
theorem monthLoop_eq_none_of_no_months (dateStr normalized : String) (ref : Option Int)
    (months : List (String × Nat))
    (h : ∀ p ∈ months, findMonthAsWholeWord dateStr p.1 = none) :
    monthLoop dateStr normalized ref months = none := by
  induction months with
  | nil => rfl
  | cons p rest ih =>
    obtain ⟨name, num⟩ := p
    have hp := h _ (List.mem_cons_self _ _)
    simp only [monthLoop, hp, Option.isSome_none, Bool.false_eq_true, if_false]
    exact ih fun q hq => h q (List.mem_cons_of_mem _ hq)

/-- C4: when a month name occurs in the text only embedded inside longer
Persian-script words (every occurrence has an adjacent Persian/Arabic
character), the word-boundary matcher rejects it for every month, and —
absent a numeric date — parseJalaliDate yields no date at all. -/
theorem parseJalaliDate_embedded_month_no_match (text : String) (ref : Option Int)
    (hemb : ∀ p ∈ JALALI_MONTHS, ∀ i ∈ List.range (text.data.length + 1),
      occursAt text.data p.1.data i = true →
        (i ≠ 0 ∧ persianAt text.data (i - 1) = true) ∨
        persianAt text.data (i + p.1.data.length) = true)
    (hnum : findNumericTriple (persianToEnglishNumbers (jsTrim text)).data = none) :
    (∀ p ∈ JALALI_MONTHS, findMonthAsWholeWord text p.1 = none) ∧
    parseJalaliDate text ref = none := by
  have hall : ∀ p ∈ JALALI_MONTHS, findMonthAsWholeWord text p.1 = none :=
    fun p hp => findMonthAsWholeWord_eq_none_of_embedded _ _ (hemb p hp)
  refine ⟨hall, ?_⟩
  unfold parseJalaliDate
  dsimp only
  rw [hnum]
  exact monthLoop_eq_none_of_no_months _ _ _ _ hall

/-- C4 witness: the word دیروز (yesterday) contains the month name دی
only with the Persian letter ر adjacent to its right, so the parser
rejects it; no other month name occurs and no numeric date exists. -/
theorem parseJalaliDate_embedded_month_no_match_witness :
    (∀ p ∈ JALALI_MONTHS, findMonthAsWholeWord "دیروز" p.1 = none) ∧
    parseJalaliDate "دیروز" (some 2460000) = none :=
  parseJalaliDate_embedded_month_no_match "دیروز" (some 2460000) (by decide) (by decide)

/-- The month loop yields nothing when the text offers no day: no
ordinal word and no standalone 1-2 digit number. -/
theorem monthLoop_eq_none_of_no_day (dateStr normalized : String) (ref : Option Int)
    (months : List (String × Nat))
    (hord : extractOrdinalDay dateStr = none)
    (hday : findDay12 normalized.data false = none) :
    monthLoop dateStr normalized ref months = none := by
  induction months with
  | nil => rfl
  | cons p rest ih =>
    obtain ⟨name, num⟩ := p
    simp only [monthLoop, hord, hday, ih]
    split <;> rfl

/-- C5: a text that contains a month name as a standalone word but
neither an ordinal day word nor a standalone 1-2 digit number (digit runs
of length three or more, such as a 4-digit year, never qualify) produces
no date: the parser skips the month rather than fabricating a day, and
with no other source of a day it returns none. -/
theorem parseJalaliDate_month_only_no_date (text : String) (ref : Option Int)
    (_hmonth : ∃ p ∈ JALALI_MONTHS, (findMonthAsWholeWord text p.1).isSome = true)
    (hnum : findNumericTriple (persianToEnglishNumbers (jsTrim text)).data = none)
    (hord : extractOrdinalDay text = none)
    (hday : findDay12 (persianToEnglishNumbers (jsTrim text)).data false = none) :
    parseJalaliDate text ref = none := by
  unfold parseJalaliDate
  dsimp only
  rw [hnum]
  exact monthLoop_eq_none_of_no_day _ _ _ _ hord hday

/-- C5 witness: a month-only reference, the month name خرداد followed by
a Persian-digit year ۱۴۰۱; the month is present as a standalone word, yet
no date is produced. -/
theorem parseJalaliDate_month_only_no_date_witness :
    parseJalaliDate "خرداد ۱۴۰۱" (some 2460000) = none :=
  parseJalaliDate_month_only_no_date "خرداد ۱۴۰۱" (some 2460000)
    (by decide) (by decide) (by decide) (by decide)

/-- A list of date strings none of which parses as a Jalali or relative
date yields nothing. -/
theorem tryDateStrings_eq_none (tg : JSDate) (tag1 tag2 : DateSource) (l : List String)
    (h : ∀ s ∈ l, parseJalaliDate s (some tg.day) = none ∧ resolveRelativeDate s tg = none) :
    tryDateStrings tg tag1 tag2 l = none := by
  induction l with
  | nil => rfl
  | cons s rest ih =>
    obtain ⟨h1, h2⟩ := h s (List.mem_cons_self _ _)
    simp only [tryDateStrings, h1, h2]
    exact ih fun q hq => h q (List.mem_cons_of_mem _ hq)

/-- C9: the resolve command itself assigns the fallback record: when
neither the AI-extracted date strings nor the caption fallback yields a
parse, the album's own telegram_date is used, the gregorian field is that
timestamp's UTC day and the source tag is telegram_fallback. -/
theorem resolveAlbumDates_telegram_fallback (album : AlbumLite)
    (hAI : ∀ s ∈ album.analysisDates.getD [],
      parseJalaliDate s (some album.telegram_date.day) = none ∧
      resolveRelativeDate s album.telegram_date = none)
    (hCap : ∀ s ∈ extractDatesFromCaption album.caption_fa,
      parseJalaliDate s (some album.telegram_date.day) = none ∧
      resolveRelativeDate s album.telegram_date = none) :
    resolveAlbumDates album =
      ⟨gregorianDayString album.telegram_date.day,
       toJalaliString album.telegram_date,
       DateSource.telegram_fallback⟩ := by
  unfold resolveAlbumDates
  dsimp only
  have hA : (match album.analysisDates with
      | some ds => tryDateStrings album.telegram_date .jalali .relative ds
      | none => none) = none := by
    cases had : album.analysisDates with
    | none => rfl
    | some ds =>
      exact tryDateStrings_eq_none _ _ _ _ fun s hs => hAI s (by simp [had, hs])
  rw [hA]
  dsimp only
  by_cases hcap : (album.caption_fa == "") = true
  · simp only [hcap, if_true]
    rfl
  · simp only [Bool.not_eq_true] at hcap
    simp only [hcap, Bool.false_eq_true, if_false]
    rw [tryDateStrings_eq_none _ _ _ _ hCap]
    rfl

/-- C9 witness: an album whose only AI candidate parses neither as a
Jalali nor as a relative date and whose caption is empty falls back to
the telegram timestamp (JDN 2461049 is 2026-01-08); the time of day on
the timestamp does not move the resolved UTC day. -/
theorem resolveAlbumDates_telegram_fallback_witness :
    resolveAlbumDates ⟨⟨2461049, 43200000⟩, some ["بدون تاریخ"], ""⟩ =
      ⟨gregorianDayString (JSDate.day ⟨2461049, 43200000⟩),
       toJalaliString ⟨2461049, 43200000⟩,
       DateSource.telegram_fallback⟩ :=
  resolveAlbumDates_telegram_fallback ⟨⟨2461049, 43200000⟩, some ["بدون تاریخ"], ""⟩
    (by decide) (by decide)

/-- Bridge from the kernel-checked enumeration to the round-trip
statement: within the checked year range, every valid Persian triple
survives j2d followed by d2j. -/
theorem roundTrip_of_range {lo : Int} {cnt : Nat} (hall : roundTripRange lo cnt = true)
    (jy jm jd : Int) (h1 : lo ≤ jy) (h2 : jy < lo + cnt)
    (hv : jalaliValid jy jm jd = true) :
    d2j (j2d jy jm jd) = (jy, jm, jd) := by
  have hv' := hv
  unfold jalaliValid at hv'
  simp only [Bool.and_eq_true, decide_eq_true_eq] at hv'
  obtain ⟨⟨⟨⟨⟨hy1, hy2⟩, hm1⟩, hm2⟩, hd1⟩, hd2⟩ := hv'
  unfold roundTripRange at hall
  rw [List.all_eq_true] at hall
  have hyear := hall _ (List.mem_range.2 (show (jy - lo).toNat < cnt by omega))
  have hcast : lo + (((jy - lo).toNat : Nat) : Int) = jy := by omega
  rw [hcast] at hyear
  unfold roundTripYear at hyear
  rw [List.all_eq_true] at hyear
  have hmonth := hyear _ (List.mem_range.2 (show (jm - 1).toNat < 12 by omega))
  try dsimp only at hmonth
  have hmc : (((jm - 1).toNat : Nat) : Int) + 1 = jm := by omega
  rw [hmc] at hmonth
  rw [List.all_eq_true] at hmonth
  have hday := hmonth _ (List.mem_range.2
    (show (jd - 1).toNat < (jalaaliMonthLength jy jm).toNat by omega))
  try dsimp only at hday
  have hdc : (((jd - 1).toNat : Nat) : Int) = jd - 1 := by omega
  rw [hdc] at hday
  have hone : jd - 1 + 1 = jd := by ring
  rw [hone] at hday
  rw [j2d_day_shift jy jm jd]
  simpa using hday

/-- C1: over the checked year range, converting a valid Persian triple to
its Gregorian UTC date and back yields the same triple — both through d2j
and through the jYYYY/jMM/jDD rendering of toJalaliString — and
converting the recovered triple forward again restores the same day. -/
theorem jalaliToUTCDate_round_trip (jy jm jd : Int)
    (hy : 1380 ≤ jy ∧ jy ≤ 1409)
    (hv : jalaliValid jy jm jd = true) :
    ∃ n, jalaliToUTCDate jy jm jd = some n ∧
      d2j n = (jy, jm, jd) ∧
      jalaliToUTCDate (d2j n).1 (d2j n).2.1 (d2j n).2.2 = some n ∧
      toJalaliString ⟨n, 0⟩ =
        natPad 4 jy.toNat ++ "/" ++ natPad 2 jm.toNat ++ "/" ++ natPad 2 jd.toNat := by
  have hrt := roundTrip_of_range roundTripRange_holds jy jm jd (by omega) (by omega) hv
  refine ⟨j2d jy jm jd, ?_, hrt, ?_, ?_⟩
  · simp [jalaliToUTCDate, hv]
  · rw [hrt]
    simp [jalaliToUTCDate, hv]
  · simp only [toJalaliString]
    rw [hrt]

/-- C1 witness at the date 1404/10/18 (2026-01-08 Gregorian). -/
theorem jalaliToUTCDate_round_trip_witness :
    ∃ n, jalaliToUTCDate 1404 10 18 = some n ∧
      d2j n = (1404, 10, 18) ∧
      jalaliToUTCDate (d2j n).1 (d2j n).2.1 (d2j n).2.2 = some n ∧
      toJalaliString ⟨n, 0⟩ =
        natPad 4 (Int.toNat 1404) ++ "/" ++ natPad 2 (Int.toNat 10) ++ "/" ++
          natPad 2 (Int.toNat 18) :=
  jalaliToUTCDate_round_trip 1404 10 18 (by omega) (by decide)
